import Mathlib

/-!
# GoDaddy DNS updater: embedding of `main.go`

The update cycle of `main.go` is translated function by function.  Go strings are
modelled by Lean strings (sequences of Unicode scalars), Go `int` by `Int`, and a Go
`error` by the text `err.Error()` returns.  Everything the program asks of the outside
(the resolver, the HTTP client, the JSON codec, the file system) is answered by an
environment `Env`; every such call is appended to a trace, together with each message
handed to `logMessage`.  The only state that survives a cycle is the content of
`last_ip.txt`.
-/

namespace GoDaddy

/-- Config holds the application configuration. -/
structure Config where
  GoDaddyAPIKey : String
  GoDaddyAPISecret : String
  Domain : String
  RecordName : String
  CheckIntervalMinutes : Int
  TTL : Int
deriving DecidableEq, Repr

/-- DNSRecord represents a GoDaddy DNS A record. -/
structure DNSRecord where
  Data : String
  TTL : Int
deriving DecidableEq, Repr

def ipCheckURL : String := "https://api.ipify.org?format=text"
def godaddyAPIBase : String := "https://api.godaddy.com"
def logFile : String := "ip_log.txt"
def lastIPFile : String := "last_ip.txt"

/-- Go `net.IP`: a byte slice, 4 bytes for the short IPv4 form, 16 bytes otherwise. -/
abbrev IP := List (Fin 256)

/-- The four bytes of an IPv4 address, as `net.IP.To4` returns them. -/
structure IPv4 where
  a : Fin 256
  b : Fin 256
  c : Fin 256
  d : Fin 256
deriving DecidableEq, Repr

/-- Go `net.IP.To4`: a 4-byte slice is returned as it is, a 16-byte slice with the
prefix `00 00 00 00 00 00 00 00 00 00 ff ff` gives its last four bytes, anything
else gives nil. -/
def To4 (ip : IP) : Option IPv4 :=
  match ip with
  | [a, b, c, d] => some ⟨a, b, c, d⟩
  | [z0, z1, z2, z3, z4, z5, z6, z7, z8, z9, f0, f1, a, b, c, d] =>
    if z0 = 0 ∧ z1 = 0 ∧ z2 = 0 ∧ z3 = 0 ∧ z4 = 0 ∧ z5 = 0 ∧ z6 = 0 ∧ z7 = 0 ∧ z8 = 0 ∧ z9 = 0
        ∧ f0 = 255 ∧ f1 = 255 then
      some ⟨a, b, c, d⟩
    else none
  | _ => none

/-- Decimal digit character of `n < 10`. -/
def digitChar (n : Nat) : Char := Char.ofNat (48 + n)

/-- Go `ubtoa` of package net: the decimal form of one byte, without leading zeros. -/
def ubtoa (v : Fin 256) : List Char :=
  if v.val < 10 then [digitChar v.val]
  else if v.val < 100 then [digitChar (v.val / 10), digitChar (v.val % 10)]
  else [digitChar (v.val / 100), digitChar (v.val / 10 % 10), digitChar (v.val % 10)]

/-- Go `net.IP.String` on a 4-byte address: dotted decimal. -/
def IPv4.String (ip : IPv4) : String :=
  String.mk (ubtoa ip.a ++ '.' :: (ubtoa ip.b ++ '.' :: (ubtoa ip.c ++ '.' :: ubtoa ip.d)))

/-- Go `unicode.IsSpace`: the Unicode White_Space property. -/
def isSpace (r : Char) : Bool :=
  let n := r.toNat
  (9 ≤ n && n ≤ 13) || n == 32 || n == 133 || n == 160 || n == 5760
    || (8192 ≤ n && n ≤ 8202) || n == 8232 || n == 8233 || n == 8239 || n == 8287
    || n == 12288

/-- Go `strings.TrimSpace`: drop the leading and the trailing white space. -/
def TrimSpace (s : String) : String :=
  String.mk ((s.data.dropWhile isSpace).reverse.dropWhile isSpace).reverse

/-- An outgoing HTTP request as `http.NewRequest` and `Header.Set` build it. -/
structure Request where
  Method : String
  URL : String
  Header : List (String × String)
  Body : Option String
deriving DecidableEq, Repr

/-- An HTTP response: its status code and what `io.ReadAll(resp.Body)` returns, the
bytes read and the read error, if any. -/
structure Response where
  StatusCode : Int
  Body : String
  BodyErr : Option String
deriving DecidableEq, Repr

/-- Outcome of `os.WriteFile`: success, or an error together with what the file holds
afterwards (the call truncates before it writes, so a failure may leave anything). -/
inductive WriteResult where
  | ok : WriteResult
  | failed (err : String) (after : Option String) : WriteResult
deriving DecidableEq, Repr

/-- Answers of the outside world during one cycle. -/
structure Env where
  /-- Go `net.LookupIP`. -/
  lookupIP : String → Except String (List IP)
  /-- Go `http.Get`. -/
  httpGet : String → Except String Response
  /-- Error of `http.NewRequest method url body`, none when the request is built. -/
  newRequest : String → String → Option String → Option String
  /-- Go `(&http.Client{Timeout: t * time.Second}).Do`. -/
  clientDo : Nat → Request → Except String Response
  /-- Go `json.Marshal` on a record list. -/
  jsonMarshal : List DNSRecord → Except String String
  /-- Go `json.Unmarshal` into a record list. -/
  jsonUnmarshalRecords : String → Except String (List DNSRecord)
  /-- Go `json.Unmarshal` into a `Config`. -/
  jsonUnmarshalConfig : String → Except String Config
  /-- Go `os.ReadFile` on files other than `last_ip.txt`. -/
  readFile : String → Except String String
  /-- Go `os.WriteFile name data 0644`. -/
  writeFile : String → String → WriteResult

/-- One observable step of a cycle. -/
inductive Event where
  | log (message : String) : Event
  | lookupIP (fqdn : String) : Event
  | httpGet (url : String) : Event
  | newRequest (method url : String) (body : Option String) : Event
  | clientDo (timeoutSeconds : Nat) (req : Request) : Event
  | jsonMarshal (records : List DNSRecord) : Event
  | jsonUnmarshal (body : String) : Event
  | readFile (name : String) : Event
  | writeFile (name data : String) : Event
deriving DecidableEq, Repr

/-- State threaded through a cycle: the content of `last_ip.txt` (none when it cannot
be read) and the trace so far, oldest event first. -/
structure World where
  lastIP : Option String
  trace : List Event
deriving DecidableEq, Repr

def World.emit (w : World) (e : Event) : World :=
  { w with trace := w.trace ++ [e] }

/-- Source `logMessage`: the line is printed and appended to the log file; the time
stamp is left out and a failure to open the log file is ignored, as in the source. -/
def logMessage (message : String) (w : World) : World :=
  w.emit (Event.log message)

/-- The name `getCurrentIPFromDNS` resolves (its local variable `fqdn`). -/
def fqdn (domain recordName : String) : String :=
  if recordName = "@" ∨ recordName = "" then domain else recordName ++ "." ++ domain

/-- Source `getCurrentIPFromDNS`. -/
def getCurrentIPFromDNS (env : Env) (domain recordName : String) (w : World) :
    Except String String × World :=
  let name := fqdn domain recordName
  let w1 := w.emit (Event.lookupIP name)
  match env.lookupIP name with
  | Except.error err => (Except.error err, w1)
  | Except.ok ips =>
    match ips.findSome? To4 with
    | some ipv4 => (Except.ok ipv4.String, w1)
    | none => (Except.error ("no IPv4 address found for " ++ name), w1)

/-- Source `getCurrentIPFromAPI`. -/
def getCurrentIPFromAPI (env : Env) (w : World) : Except String String × World :=
  let w1 := w.emit (Event.httpGet ipCheckURL)
  match env.httpGet ipCheckURL with
  | Except.error err => (Except.error err, w1)
  | Except.ok resp =>
    match resp.BodyErr with
    | some err => (Except.error err, w1)
    | none => (Except.ok (TrimSpace resp.Body), w1)

/-- Source `getCurrentIP`. -/
def getCurrentIP (env : Env) (config : Config) (w : World) : Except String String × World :=
  match getCurrentIPFromDNS env config.Domain config.RecordName w with
  | (Except.ok ip, w1) => (Except.ok ip, logMessage ("IP resolved from DNS: " ++ ip) w1)
  | (Except.error err, w1) =>
    let w2 := logMessage ("DNS resolution failed: " ++ err ++ ", using API fallback") w1
    match getCurrentIPFromAPI env w2 with
    | (Except.error err2, w3) => (Except.error err2, w3)
    | (Except.ok ip, w3) => (Except.ok ip, logMessage ("IP from API: " ++ ip) w3)

/-- Source `getLastIP`. -/
def getLastIP (w : World) : String × World :=
  let w1 := w.emit (Event.readFile lastIPFile)
  match w.lastIP with
  | none => ("", w1)
  | some data => (TrimSpace data, w1)

/-- Source `saveLastIP`. -/
def saveLastIP (env : Env) (ip : String) (w : World) : Except String Unit × World :=
  let w1 := w.emit (Event.writeFile lastIPFile ip)
  match env.writeFile lastIPFile ip with
  | WriteResult.ok => (Except.ok (), { w1 with lastIP := some ip })
  | WriteResult.failed err after => (Except.error err, { w1 with lastIP := after })

/-- The URL both provider calls use. -/
def recordURL (config : Config) : String :=
  godaddyAPIBase ++ "/v1/domains/" ++ config.Domain ++ "/records/A/" ++ config.RecordName

/-- The `Authorization` header value both provider calls use. -/
def authHeader (config : Config) : String :=
  "sso-key " ++ config.GoDaddyAPIKey ++ ":" ++ config.GoDaddyAPISecret

/-- The error both provider calls build on a status other than 200. -/
def statusError (resp : Response) : String :=
  "API request failed with status " ++ toString resp.StatusCode ++ ": " ++ resp.Body

/-- Source `getGoDaddyDNS`. -/
def getGoDaddyDNS (env : Env) (config : Config) (w : World) : Except String String × World :=
  let url := recordURL config
  let w1 := w.emit (Event.newRequest "GET" url none)
  match env.newRequest "GET" url none with
  | some err => (Except.error err, w1)
  | none =>
    let req : Request := ⟨"GET", url, [("Authorization", authHeader config)], none⟩
    let w2 := w1.emit (Event.clientDo 10 req)
    match env.clientDo 10 req with
    | Except.error err => (Except.error err, w2)
    | Except.ok resp =>
      if resp.StatusCode ≠ 200 then (Except.error (statusError resp), w2)
      else
        match resp.BodyErr with
        | some err => (Except.error err, w2)
        | none =>
          let w3 := w2.emit (Event.jsonUnmarshal resp.Body)
          match env.jsonUnmarshalRecords resp.Body with
          | Except.error err => (Except.error err, w3)
          | Except.ok records =>
            match records with
            | r :: _ => (Except.ok r.Data, w3)
            | [] => (Except.error "no DNS record found", w3)

/-- Source `updateGoDaddyDNS`. -/
def updateGoDaddyDNS (env : Env) (config : Config) (ip : String) (w : World) :
    Except String Unit × World :=
  let records : List DNSRecord := [⟨ip, config.TTL⟩]
  let w1 := w.emit (Event.jsonMarshal records)
  match env.jsonMarshal records with
  | Except.error err => (Except.error err, w1)
  | Except.ok jsonData =>
    let url := recordURL config
    let w2 := w1.emit (Event.newRequest "PUT" url (some jsonData))
    match env.newRequest "PUT" url (some jsonData) with
    | some err => (Except.error err, w2)
    | none =>
      let req : Request :=
        ⟨"PUT", url,
          [("Content-Type", "application/json"), ("Authorization", authHeader config)],
          some jsonData⟩
      let w3 := w2.emit (Event.clientDo 10 req)
      match env.clientDo 10 req with
      | Except.error err => (Except.error err, w3)
      | Except.ok resp =>
        if resp.StatusCode ≠ 200 then (Except.error (statusError resp), w3)
        else (Except.ok (), w3)

/-- Lines 279 to 288 of `checkAndUpdate`: the provider's record, or the cached value
when the provider cannot be read. -/
def fetchBaseline (env : Env) (config : Config) (w : World) : String × World :=
  match getGoDaddyDNS env config w with
  | (Except.error err, w1) =>
    let w2 := logMessage ("Error fetching GoDaddy DNS record: " ++ err) w1
    let r := getLastIP w2
    (r.1, logMessage ("Using cached IP from file: " ++ r.1) r.2)
  | (Except.ok dnsIP, w1) => (dnsIP, logMessage ("GoDaddy DNS IP: " ++ dnsIP) w1)

/-- Source `checkAndUpdate`. -/
def checkAndUpdate (env : Env) (config : Config) (w : World) : World :=
  match getCurrentIP env config w with
  | (Except.error err, w1) => logMessage ("Error getting current IP: " ++ err) w1
  | (Except.ok currentIP, w1) =>
    let w2 := logMessage ("Current IP: " ++ currentIP) w1
    let base := fetchBaseline env config w2
    let dnsIP := base.1
    if currentIP = dnsIP then
      let w4 := logMessage "IP matches GoDaddy DNS, no update needed" base.2
      (saveLastIP env currentIP w4).2
    else
      let w4 := logMessage ("IP changed from " ++ dnsIP ++ " to " ++ currentIP) base.2
      match updateGoDaddyDNS env config currentIP w4 with
      | (Except.error err, w5) => logMessage ("Error updating GoDaddy DNS: " ++ err) w5
      | (Except.ok _, w5) =>
        let w6 := logMessage "Successfully updated GoDaddy DNS" w5
        match saveLastIP env currentIP w6 with
        | (Except.error err, w7) => logMessage ("Error saving last IP: " ++ err) w7
        | (Except.ok _, w7) => w7

/-- Source `loadConfig`. -/
def loadConfig (env : Env) (filename : String) : Except String Config :=
  match env.readFile filename with
  | Except.error err => Except.error err
  | Except.ok file =>
    match env.jsonUnmarshalConfig file with
    | Except.error err => Except.error err
    | Except.ok config =>
      if config.GoDaddyAPIKey = "" ∨ config.GoDaddyAPIKey = "YOUR_API_KEY_HERE" then
        Except.error "godaddy_api_key not configured"
      else if config.GoDaddyAPISecret = "" ∨ config.GoDaddyAPISecret = "YOUR_API_SECRET_HERE" then
        Except.error "godaddy_api_secret not configured"
      else if config.Domain = "" then
        Except.error "domain not configured"
      else
        let c1 := if config.RecordName = "" then { config with RecordName := "@" } else config
        let c2 := if c1.CheckIntervalMinutes ≤ 0 then { c1 with CheckIntervalMinutes := 5 } else c1
        let c3 := if c2.TTL ≤ 0 then { c2 with TTL := 600 } else c2
        Except.ok c3

/-! ## Observations on a trace -/

/-- Calls of `updateGoDaddyDNS`, each with the record list it builds (the function
marshals that list first thing, whatever happens next). -/
def updateCalls (tr : List Event) : List (List DNSRecord) :=
  tr.filterMap fun e => match e with
    | Event.jsonMarshal records => some records
    | _ => none

/-- Write requests (`PUT`) sent to the provider. -/
def providerWrites (tr : List Event) : List Request :=
  tr.filterMap fun e => match e with
    | Event.clientDo _ req => if req.Method = "PUT" then some req else none
    | _ => none

/-- Calls of `os.WriteFile`, that is of `saveLastIP`: file name and data. -/
def storeWrites (tr : List Event) : List (String × String) :=
  tr.filterMap fun e => match e with
    | Event.writeFile name data => some (name, data)
    | _ => none

/-- Requests to the IP-echo service. -/
def echoCalls (tr : List Event) : List String :=
  tr.filterMap fun e => match e with
    | Event.httpGet url => some url
    | _ => none

/-- Names handed to `net.LookupIP`. -/
def lookups (tr : List Event) : List String :=
  tr.filterMap fun e => match e with
    | Event.lookupIP name => some name
    | _ => none

/-- Messages handed to `logMessage`. -/
def logLines (tr : List Event) : List String :=
  tr.filterMap fun e => match e with
    | Event.log message => some message
    | _ => none

/-- Whether a log line carries the text `err`. -/
def carries (line err : String) : Bool :=
  decide (err.data <:+: line.data)

/-! ## Dotted-decimal IPv4 strings -/

/-- Split at every dot. -/
def splitDots : List Char → List (List Char)
  | [] => [[]]
  | c :: cs =>
    if c = '.' then [] :: splitDots cs
    else
      match splitDots cs with
      | [] => [[c]]
      | p :: ps => (c :: p) :: ps

/-- Value of a decimal digit character. -/
def digitVal (c : Char) : Nat := c.toNat - 48

/-- One to three decimal digits, no leading zero, at most 255. -/
def isOctet (ds : List Char) : Bool :=
  match ds with
  | [d] => d.isDigit
  | [d1, d2] => d1.isDigit && d2.isDigit && d1 != '0'
  | [d1, d2, d3] =>
    d1.isDigit && d2.isDigit && d3.isDigit && d1 != '0'
      && decide (digitVal d1 * 100 + digitVal d2 * 10 + digitVal d3 ≤ 255)
  | _ => false

/-- A valid dotted-decimal IPv4 address: four octets separated by dots. -/
def isDottedDecimalIPv4 (s : String) : Bool :=
  match splitDots s.data with
  | [a, b, c, d] => isOctet a && isOctet b && isOctet c && isOctet d
  | _ => false

/-- What `ubtoa` produces for a byte: a valid octet, free of dots and white space. -/
def octetFacts (v : Fin 256) : Bool :=
  isOctet (ubtoa v) && (ubtoa v).all (fun c => !isSpace c && c != '.')

/-! ## Concrete configurations and environments -/

def exampleConfig : Config := ⟨"key", "secret", "example.com", "@", 5, 600⟩

/-- The resolver finds `203.0.113.9` behind an IPv6 address, the provider publishes
`203.0.113.1` and accepts the update, the file write succeeds. -/
def exampleEnv : Env where
  lookupIP := fun _ =>
    Except.ok [[32, 1, 13, 184, 0, 0, 0, 0, 0, 0, 0, 0, 0, 0, 0, 1], [203, 0, 113, 9]]
  httpGet := fun _ => Except.error "ip echo unreachable"
  newRequest := fun _ _ _ => none
  clientDo := fun _ req =>
    if req.Method = "GET" then Except.ok ⟨200, "[record]", none⟩ else Except.ok ⟨200, "", none⟩
  jsonMarshal := fun _ => Except.ok "[body]"
  jsonUnmarshalRecords := fun _ => Except.ok [⟨"203.0.113.1", 600⟩]
  jsonUnmarshalConfig := fun _ => Except.ok ⟨"key", "secret", "example.com", "", 0, 0⟩
  readFile := fun _ => Except.ok "config"
  writeFile := fun _ _ => WriteResult.ok

/-- As `exampleEnv`, but the provider answers the update with status 500. -/
def envUpdateFails : Env :=
  { exampleEnv with
    clientDo := fun _ req =>
      if req.Method = "GET" then Except.ok ⟨200, "[record]", none⟩
      else Except.ok ⟨500, "boom", none⟩ }

/-- As `exampleEnv`, but the provider already publishes `203.0.113.9`. -/
def envSame : Env :=
  { exampleEnv with jsonUnmarshalRecords := fun _ => Except.ok [⟨"203.0.113.9", 600⟩] }

/-- As `exampleEnv`, but the provider answers the read with status 500. -/
def envReadFails : Env :=
  { exampleEnv with
    clientDo := fun _ req =>
      if req.Method = "GET" then Except.ok ⟨500, "boom", none⟩ else Except.ok ⟨200, "", none⟩ }

/-- Neither the resolver nor the IP-echo service answers. -/
def envNoResolver : Env :=
  { exampleEnv with lookupIP := fun _ => Except.error "no such host" }

/-- The resolver returns one IPv6 address only; the IP-echo service answers. -/
def envEcho : Env :=
  { exampleEnv with
    lookupIP := fun _ => Except.ok [[32, 1, 13, 184, 0, 0, 0, 0, 0, 0, 0, 0, 0, 0, 0, 1]]
    httpGet := fun _ => Except.ok ⟨200, " 198.51.100.7\n", none⟩ }

/-- The resolver fails and the IP-echo service answers 200 with an empty body. -/
def envEmptyEcho : Env :=
  { exampleEnv with
    lookupIP := fun _ => Except.error "no such host"
    httpGet := fun _ => Except.ok ⟨200, "", none⟩ }

/-- As `envSame`, but `last_ip.txt` cannot be written. -/
def envWriteFails : Env :=
  { envSame with writeFile := fun _ _ => WriteResult.failed "permission denied" none }

/-- As `exampleEnv`, but `last_ip.txt` cannot be written. -/
def envWriteFailsAfterUpdate : Env :=
  { exampleEnv with writeFile := fun _ _ => WriteResult.failed "permission denied" none }

deriving instance DecidableEq for Except

/-! ## Trace observations distribute over concatenation -/

theorem updateCalls_append (a b : List Event) :
    updateCalls (a ++ b) = updateCalls a ++ updateCalls b := by
  simp [updateCalls]

theorem providerWrites_append (a b : List Event) :
    providerWrites (a ++ b) = providerWrites a ++ providerWrites b := by
  simp [providerWrites]

theorem storeWrites_append (a b : List Event) :
    storeWrites (a ++ b) = storeWrites a ++ storeWrites b := by
  simp [storeWrites]

theorem echoCalls_append (a b : List Event) :
    echoCalls (a ++ b) = echoCalls a ++ echoCalls b := by
  simp [echoCalls]

theorem lookups_append (a b : List Event) :
    lookups (a ++ b) = lookups a ++ lookups b := by
  simp [lookups]

theorem logLines_append (a b : List Event) :
    logLines (a ++ b) = logLines a ++ logLines b := by
  simp [logLines]

theorem emit_lastIP (w : World) (e : Event) : (w.emit e).lastIP = w.lastIP := rfl

theorem emit_trace (w : World) (e : Event) : (w.emit e).trace = w.trace ++ [e] := rfl

theorem logMessage_lastIP (m : String) (w : World) : (logMessage m w).lastIP = w.lastIP := rfl

theorem logMessage_trace (m : String) (w : World) :
    (logMessage m w).trace = w.trace ++ [Event.log m] := rfl

/-! ## The resolver -/

/-- The result of `getCurrentIPFromDNS` does not depend on the world it runs in. -/
theorem getCurrentIPFromDNS_fst (env : Env) (d r : String) (w w' : World) :
    (getCurrentIPFromDNS env d r w).1 = (getCurrentIPFromDNS env d r w').1 := by
  unfold getCurrentIPFromDNS
  dsimp only
  repeat (first | rfl | split)

theorem getCurrentIPFromDNS_snd (env : Env) (d r : String) (w : World) :
    (getCurrentIPFromDNS env d r w).2 = w.emit (Event.lookupIP (fqdn d r)) := by
  unfold getCurrentIPFromDNS
  dsimp only
  repeat (first | rfl | split)

theorem getCurrentIPFromAPI_fst (env : Env) (w w' : World) :
    (getCurrentIPFromAPI env w).1 = (getCurrentIPFromAPI env w').1 := by
  unfold getCurrentIPFromAPI
  dsimp only
  repeat (first | rfl | split)

theorem getCurrentIPFromAPI_snd (env : Env) (w : World) :
    (getCurrentIPFromAPI env w).2 = w.emit (Event.httpGet ipCheckURL) := by
  unfold getCurrentIPFromAPI
  dsimp only
  repeat (first | rfl | split)

/-- Unfolding of `getCurrentIP` through the projections of its two strategies. -/
theorem getCurrentIP_eq (env : Env) (config : Config) (w : World) :
    getCurrentIP env config w =
      match (getCurrentIPFromDNS env config.Domain config.RecordName w).1 with
      | Except.ok ip =>
        (Except.ok ip, logMessage ("IP resolved from DNS: " ++ ip)
          (w.emit (Event.lookupIP (fqdn config.Domain config.RecordName))))
      | Except.error err =>
        match (getCurrentIPFromAPI env w).1 with
        | Except.error err2 =>
          (Except.error err2,
            (logMessage ("DNS resolution failed: " ++ err ++ ", using API fallback")
              (w.emit (Event.lookupIP (fqdn config.Domain config.RecordName)))).emit
                (Event.httpGet ipCheckURL))
        | Except.ok ip =>
          (Except.ok ip, logMessage ("IP from API: " ++ ip)
            ((logMessage ("DNS resolution failed: " ++ err ++ ", using API fallback")
              (w.emit (Event.lookupIP (fqdn config.Domain config.RecordName)))).emit
                (Event.httpGet ipCheckURL))) := by
  unfold getCurrentIP
  have hs := getCurrentIPFromDNS_snd env config.Domain config.RecordName w
  rcases h1 : getCurrentIPFromDNS env config.Domain config.RecordName w with ⟨r1, w1⟩
  rw [h1] at hs
  simp only at hs
  subst hs
  cases r1 with
  | ok ip => rfl
  | error e =>
    simp only
    have hf := getCurrentIPFromAPI_fst env
      (logMessage ("DNS resolution failed: " ++ e ++ ", using API fallback")
        (w.emit (Event.lookupIP (fqdn config.Domain config.RecordName)))) w
    have hs2 := getCurrentIPFromAPI_snd env
      (logMessage ("DNS resolution failed: " ++ e ++ ", using API fallback")
        (w.emit (Event.lookupIP (fqdn config.Domain config.RecordName))))
    rcases h2 : getCurrentIPFromAPI env
      (logMessage ("DNS resolution failed: " ++ e ++ ", using API fallback")
        (w.emit (Event.lookupIP (fqdn config.Domain config.RecordName)))) with ⟨r2, w2⟩
    rw [h2] at hf hs2
    simp only at hf hs2
    subst hs2
    rw [← hf]
    cases r2 <;> rfl

theorem getCurrentIP_fst (env : Env) (config : Config) (w w' : World) :
    (getCurrentIP env config w).1 = (getCurrentIP env config w').1 := by
  rw [getCurrentIP_eq, getCurrentIP_eq, getCurrentIPFromDNS_fst env _ _ w w',
    getCurrentIPFromAPI_fst env w w']
  repeat (first | rfl | split)

theorem getCurrentIP_lastIP (env : Env) (config : Config) (w : World) :
    (getCurrentIP env config w).2.lastIP = w.lastIP := by
  rw [getCurrentIP_eq]
  repeat (first | rfl | split)

theorem getCurrentIP_updateCalls (env : Env) (config : Config) (w : World) :
    updateCalls (getCurrentIP env config w).2.trace = updateCalls w.trace := by
  rw [getCurrentIP_eq]
  repeat (first | split | simp [logMessage, World.emit, updateCalls])

theorem getCurrentIP_providerWrites (env : Env) (config : Config) (w : World) :
    providerWrites (getCurrentIP env config w).2.trace = providerWrites w.trace := by
  rw [getCurrentIP_eq]
  repeat (first | split | simp [logMessage, World.emit, providerWrites])

theorem getCurrentIP_storeWrites (env : Env) (config : Config) (w : World) :
    storeWrites (getCurrentIP env config w).2.trace = storeWrites w.trace := by
  rw [getCurrentIP_eq]
  repeat (first | split | simp [logMessage, World.emit, storeWrites])

/-! ## The state store -/

theorem getLastIP_fst (w : World) :
    (getLastIP w).1 = match w.lastIP with
      | none => ""
      | some data => TrimSpace data := by
  unfold getLastIP
  dsimp only
  repeat (first | rfl | split)

theorem getLastIP_snd (w : World) : (getLastIP w).2 = w.emit (Event.readFile lastIPFile) := by
  unfold getLastIP
  dsimp only
  repeat (first | rfl | split)

/-- What `getLastIP` returns depends on the file only. -/
theorem getLastIP_congr (w w' : World) (h : w.lastIP = w'.lastIP) :
    (getLastIP w).1 = (getLastIP w').1 := by
  rw [getLastIP_fst, getLastIP_fst, h]

theorem saveLastIP_trace (env : Env) (ip : String) (w : World) :
    (saveLastIP env ip w).2.trace = w.trace ++ [Event.writeFile lastIPFile ip] := by
  unfold saveLastIP
  dsimp only
  repeat (first | rfl | split)

theorem saveLastIP_fst (env : Env) (ip : String) (w : World) :
    (saveLastIP env ip w).1 = match env.writeFile lastIPFile ip with
      | WriteResult.ok => Except.ok ()
      | WriteResult.failed err _ => Except.error err := by
  unfold saveLastIP
  dsimp only
  repeat (first | rfl | split)

theorem saveLastIP_lastIP (env : Env) (ip : String) (w : World) :
    (saveLastIP env ip w).2.lastIP = match env.writeFile lastIPFile ip with
      | WriteResult.ok => some ip
      | WriteResult.failed _ after => after := by
  unfold saveLastIP
  dsimp only
  repeat (first | rfl | split)

/-! ## The provider client -/

theorem getGoDaddyDNS_fst (env : Env) (config : Config) (w w' : World) :
    (getGoDaddyDNS env config w).1 = (getGoDaddyDNS env config w').1 := by
  unfold getGoDaddyDNS
  dsimp only
  repeat (first | rfl | split)

theorem getGoDaddyDNS_lastIP (env : Env) (config : Config) (w : World) :
    (getGoDaddyDNS env config w).2.lastIP = w.lastIP := by
  unfold getGoDaddyDNS
  dsimp only
  repeat (first | rfl | split)

theorem getGoDaddyDNS_updateCalls (env : Env) (config : Config) (w : World) :
    updateCalls (getGoDaddyDNS env config w).2.trace = updateCalls w.trace := by
  unfold getGoDaddyDNS
  dsimp only
  repeat (first | split | simp [World.emit, updateCalls])

theorem getGoDaddyDNS_providerWrites (env : Env) (config : Config) (w : World) :
    providerWrites (getGoDaddyDNS env config w).2.trace = providerWrites w.trace := by
  unfold getGoDaddyDNS
  dsimp only
  repeat (first | split | simp [World.emit, providerWrites])

theorem getGoDaddyDNS_storeWrites (env : Env) (config : Config) (w : World) :
    storeWrites (getGoDaddyDNS env config w).2.trace = storeWrites w.trace := by
  unfold getGoDaddyDNS
  dsimp only
  repeat (first | split | simp [World.emit, storeWrites])

theorem updateGoDaddyDNS_fst (env : Env) (config : Config) (ip : String) (w w' : World) :
    (updateGoDaddyDNS env config ip w).1 = (updateGoDaddyDNS env config ip w').1 := by
  unfold updateGoDaddyDNS
  dsimp only
  repeat (first | rfl | split)

theorem updateGoDaddyDNS_lastIP (env : Env) (config : Config) (ip : String) (w : World) :
    (updateGoDaddyDNS env config ip w).2.lastIP = w.lastIP := by
  unfold updateGoDaddyDNS
  dsimp only
  repeat (first | rfl | split)

theorem updateGoDaddyDNS_updateCalls (env : Env) (config : Config) (ip : String) (w : World) :
    updateCalls (updateGoDaddyDNS env config ip w).2.trace
      = updateCalls w.trace ++ [[⟨ip, config.TTL⟩]] := by
  unfold updateGoDaddyDNS
  dsimp only
  repeat (first | split | simp [World.emit, updateCalls])

theorem updateGoDaddyDNS_storeWrites (env : Env) (config : Config) (ip : String) (w : World) :
    storeWrites (updateGoDaddyDNS env config ip w).2.trace = storeWrites w.trace := by
  unfold updateGoDaddyDNS
  dsimp only
  repeat (first | split | simp [World.emit, storeWrites])

/-- A successful update has sent exactly one `PUT`, whose body is the marshalled
single-record list. -/
theorem updateGoDaddyDNS_ok (env : Env) (config : Config) (ip : String) (w : World)
    (h : (updateGoDaddyDNS env config ip w).1 = Except.ok ()) :
    ∃ jsonData, env.jsonMarshal [⟨ip, config.TTL⟩] = Except.ok jsonData ∧
      providerWrites (updateGoDaddyDNS env config ip w).2.trace
        = providerWrites w.trace ++
          [⟨"PUT", recordURL config,
            [("Content-Type", "application/json"), ("Authorization", authHeader config)],
            some jsonData⟩] := by
  unfold updateGoDaddyDNS at h ⊢
  dsimp only at h ⊢
  cases hm : env.jsonMarshal [⟨ip, config.TTL⟩] with
  | error e => rw [hm] at h; simp at h
  | ok jsonData =>
    refine ⟨jsonData, rfl, ?_⟩
    rw [hm] at h
    simp only at h ⊢
    cases hn : env.newRequest "PUT" (recordURL config) (some jsonData) with
    | some e => rw [hn] at h; simp at h
    | none =>
      rw [hn] at h
      simp only at h ⊢
      split at h
      · simp at h
      · split at h
        · simp at h
        · simp_all [World.emit, providerWrites]

/-! ## The update engine -/

/-- Unfolding of `fetchBaseline` through projections. -/
theorem fetchBaseline_eq (env : Env) (config : Config) (w : World) :
    fetchBaseline env config w =
      match (getGoDaddyDNS env config w).1 with
      | Except.error err =>
        ((getLastIP w).1,
          logMessage ("Using cached IP from file: " ++ (getLastIP w).1)
            ((logMessage ("Error fetching GoDaddy DNS record: " ++ err)
              (getGoDaddyDNS env config w).2).emit (Event.readFile lastIPFile)))
      | Except.ok dnsIP =>
        (dnsIP, logMessage ("GoDaddy DNS IP: " ++ dnsIP) (getGoDaddyDNS env config w).2) := by
  unfold fetchBaseline
  have hl := getGoDaddyDNS_lastIP env config w
  rcases h1 : getGoDaddyDNS env config w with ⟨r1, w1⟩
  rw [h1] at hl
  simp only at hl
  cases r1 with
  | ok d => rfl
  | error e =>
    simp only
    rw [getLastIP_snd,
      getLastIP_congr (logMessage ("Error fetching GoDaddy DNS record: " ++ e) w1) w
        (by rw [logMessage_lastIP, hl])]

theorem fetchBaseline_fst_ok (env : Env) (config : Config) (w : World) (d : String)
    (h : (getGoDaddyDNS env config w).1 = Except.ok d) :
    (fetchBaseline env config w).1 = d := by
  rw [fetchBaseline_eq, h]

theorem fetchBaseline_fst_error (env : Env) (config : Config) (w : World) (e : String)
    (h : (getGoDaddyDNS env config w).1 = Except.error e) :
    (fetchBaseline env config w).1 = (getLastIP w).1 := by
  rw [fetchBaseline_eq, h]

/-- The baseline depends on the file only, not on the trace. -/
theorem fetchBaseline_congr (env : Env) (config : Config) (w w' : World)
    (h : w.lastIP = w'.lastIP) :
    (fetchBaseline env config w).1 = (fetchBaseline env config w').1 := by
  rw [fetchBaseline_eq, fetchBaseline_eq, getGoDaddyDNS_fst env config w w',
    getLastIP_congr w w' h]
  repeat (first | rfl | split)

theorem fetchBaseline_lastIP (env : Env) (config : Config) (w : World) :
    (fetchBaseline env config w).2.lastIP = w.lastIP := by
  rw [fetchBaseline_eq]
  split <;> simp [logMessage_lastIP, emit_lastIP, getGoDaddyDNS_lastIP]

theorem fetchBaseline_updateCalls (env : Env) (config : Config) (w : World) :
    updateCalls (fetchBaseline env config w).2.trace = updateCalls w.trace := by
  rw [fetchBaseline_eq]
  split <;>
    simp [logMessage_trace, emit_trace, updateCalls_append, getGoDaddyDNS_updateCalls] <;>
    simp [updateCalls]

theorem fetchBaseline_providerWrites (env : Env) (config : Config) (w : World) :
    providerWrites (fetchBaseline env config w).2.trace = providerWrites w.trace := by
  rw [fetchBaseline_eq]
  split <;>
    simp [logMessage_trace, emit_trace, providerWrites_append, getGoDaddyDNS_providerWrites] <;>
    simp [providerWrites]

theorem fetchBaseline_storeWrites (env : Env) (config : Config) (w : World) :
    storeWrites (fetchBaseline env config w).2.trace = storeWrites w.trace := by
  rw [fetchBaseline_eq]
  split <;>
    simp [logMessage_trace, emit_trace, storeWrites_append, getGoDaddyDNS_storeWrites] <;>
    simp [storeWrites]

/-- A cycle whose resolver fails logs the error and stops. -/
theorem checkAndUpdate_error (env : Env) (config : Config) (w : World) (err : String)
    (h : (getCurrentIP env config w).1 = Except.error err) :
    checkAndUpdate env config w
      = logMessage ("Error getting current IP: " ++ err) (getCurrentIP env config w).2 := by
  unfold checkAndUpdate
  rcases h1 : getCurrentIP env config w with ⟨r1, w1⟩
  rw [h1] at h
  simp only at h
  subst h
  rfl

/-- Unfolding of `checkAndUpdate` after a successful resolution, through projections. -/
theorem checkAndUpdate_ok (env : Env) (config : Config) (w : World) (x : String)
    (h : (getCurrentIP env config w).1 = Except.ok x) :
    checkAndUpdate env config w =
      if x = (fetchBaseline env config w).1 then
        (saveLastIP env x (logMessage "IP matches GoDaddy DNS, no update needed"
          (fetchBaseline env config
            (logMessage ("Current IP: " ++ x) (getCurrentIP env config w).2)).2)).2
      else
        match (updateGoDaddyDNS env config x w).1 with
        | Except.error err =>
          logMessage ("Error updating GoDaddy DNS: " ++ err)
            (updateGoDaddyDNS env config x
              (logMessage
                ("IP changed from " ++ (fetchBaseline env config w).1 ++ " to " ++ x)
                (fetchBaseline env config
                  (logMessage ("Current IP: " ++ x) (getCurrentIP env config w).2)).2)).2
        | Except.ok _ =>
          match (saveLastIP env x w).1 with
          | Except.error err =>
            logMessage ("Error saving last IP: " ++ err)
              (saveLastIP env x (logMessage "Successfully updated GoDaddy DNS"
                (updateGoDaddyDNS env config x
                  (logMessage
                    ("IP changed from " ++ (fetchBaseline env config w).1 ++ " to " ++ x)
                    (fetchBaseline env config
                      (logMessage ("Current IP: " ++ x)
                        (getCurrentIP env config w).2)).2)).2)).2
          | Except.ok _ =>
            (saveLastIP env x (logMessage "Successfully updated GoDaddy DNS"
              (updateGoDaddyDNS env config x
                (logMessage
                  ("IP changed from " ++ (fetchBaseline env config w).1 ++ " to " ++ x)
                  (fetchBaseline env config
                    (logMessage ("Current IP: " ++ x)
                      (getCurrentIP env config w).2)).2)).2)).2 := by
  unfold checkAndUpdate
  have hl := getCurrentIP_lastIP env config w
  rcases h1 : getCurrentIP env config w with ⟨r1, w1⟩
  rw [h1] at h hl
  simp only at h hl
  subst h
  simp only
  have hb : (fetchBaseline env config (logMessage ("Current IP: " ++ x) w1)).1
      = (fetchBaseline env config w).1 :=
    fetchBaseline_congr env config _ _ (by rw [logMessage_lastIP, hl])
  rw [hb]
  split
  · rfl
  · generalize hw4 : logMessage
        ("IP changed from " ++ (fetchBaseline env config w).1 ++ " to " ++ x)
        (fetchBaseline env config (logMessage ("Current IP: " ++ x) w1)).2 = w4
    have hu := updateGoDaddyDNS_fst env config x w4 w
    rcases h2 : updateGoDaddyDNS env config x w4 with ⟨r2, w5⟩
    rw [h2] at hu
    simp only at hu
    rw [← hu]
    cases r2 with
    | error e => rfl
    | ok u =>
      simp only
      have hs : (saveLastIP env x (logMessage "Successfully updated GoDaddy DNS" w5)).1
          = (saveLastIP env x w).1 := by
        rw [saveLastIP_fst, saveLastIP_fst]
      rcases h3 : saveLastIP env x (logMessage "Successfully updated GoDaddy DNS" w5)
        with ⟨r3, w7⟩
      rw [h3] at hs
      simp only at hs
      rw [← hs]
      cases r3 <;> rfl

/-! ## Resolution order -/

theorem findSome_To4_first (pre post : List IP) (ip : IP) (v4 : IPv4)
    (hpre : ∀ p ∈ pre, To4 p = none) (hip : To4 ip = some v4) :
    (pre ++ ip :: post).findSome? To4 = some v4 := by
  induction pre with
  | nil => simp [List.findSome?, hip]
  | cons p ps ih =>
    have hp : To4 p = none := hpre p (List.mem_cons_self p ps)
    have hps : ∀ q ∈ ps, To4 q = none := fun q hq => hpre q (List.mem_cons_of_mem p hq)
    simp [List.findSome?, hp, ih hps]

theorem findSome_To4_none (ips : List IP) (h : ∀ p ∈ ips, To4 p = none) :
    ips.findSome? To4 = none := by
  induction ips with
  | nil => rfl
  | cons p ps ih =>
    have hp : To4 p = none := h p (List.mem_cons_self p ps)
    have hps : ∀ q ∈ ps, To4 q = none := fun q hq => h q (List.mem_cons_of_mem p hq)
    simp [List.findSome?, hp, ih hps]

theorem getCurrentIPFromDNS_fst_eq (env : Env) (d r : String) (w : World) :
    (getCurrentIPFromDNS env d r w).1 =
      match env.lookupIP (fqdn d r) with
      | Except.error err => Except.error err
      | Except.ok ips =>
        match ips.findSome? To4 with
        | some ipv4 => Except.ok ipv4.String
        | none => Except.error ("no IPv4 address found for " ++ fqdn d r) := by
  unfold getCurrentIPFromDNS
  dsimp only
  repeat (first | rfl | split)

theorem getCurrentIPFromAPI_fst_eq (env : Env) (w : World) :
    (getCurrentIPFromAPI env w).1 =
      match env.httpGet ipCheckURL with
      | Except.error err => Except.error err
      | Except.ok resp =>
        match resp.BodyErr with
        | some err => Except.error err
        | none => Except.ok (TrimSpace resp.Body) := by
  unfold getCurrentIPFromAPI
  dsimp only
  repeat (first | rfl | split)

/-- When the DNS strategy fails, so does `getCurrentIPFromDNS`. -/
theorem getCurrentIPFromDNS_fails (env : Env) (d r : String) (w : World)
    (hdns : (∃ e, env.lookupIP (fqdn d r) = Except.error e) ∨
      (∃ ips, env.lookupIP (fqdn d r) = Except.ok ips ∧ ∀ ip ∈ ips, To4 ip = none)) :
    ∃ e, (getCurrentIPFromDNS env d r w).1 = Except.error e := by
  rw [getCurrentIPFromDNS_fst_eq]
  rcases hdns with ⟨e, he⟩ | ⟨ips, hips, hnone⟩
  · exact ⟨e, by rw [he]⟩
  · exact ⟨"no IPv4 address found for " ++ fqdn d r, by
      rw [hips]; simp only; rw [findSome_To4_none ips hnone]⟩

/-- When the IP-echo strategy fails, so does `getCurrentIPFromAPI`. -/
theorem getCurrentIPFromAPI_fails (env : Env) (w : World)
    (hapi : (∃ e, env.httpGet ipCheckURL = Except.error e) ∨
      (∃ resp e, env.httpGet ipCheckURL = Except.ok resp ∧ resp.BodyErr = some e)) :
    ∃ e, (getCurrentIPFromAPI env w).1 = Except.error e := by
  rw [getCurrentIPFromAPI_fst_eq]
  rcases hapi with ⟨e, he⟩ | ⟨resp, e, hresp, hbody⟩
  · exact ⟨e, by rw [he]⟩
  · exact ⟨e, by rw [hresp]; simp only; rw [hbody]⟩

theorem getCurrentIP_fails (env : Env) (config : Config) (w : World)
    (hdns : (∃ e, env.lookupIP (fqdn config.Domain config.RecordName) = Except.error e) ∨
      (∃ ips, env.lookupIP (fqdn config.Domain config.RecordName) = Except.ok ips ∧
        ∀ ip ∈ ips, To4 ip = none))
    (hapi : (∃ e, env.httpGet ipCheckURL = Except.error e) ∨
      (∃ resp e, env.httpGet ipCheckURL = Except.ok resp ∧ resp.BodyErr = some e)) :
    ∃ e, (getCurrentIP env config w).1 = Except.error e := by
  obtain ⟨e1, h1⟩ := getCurrentIPFromDNS_fails env config.Domain config.RecordName w hdns
  obtain ⟨e2, h2⟩ := getCurrentIPFromAPI_fails env w hapi
  exact ⟨e2, by rw [getCurrentIP_eq, h1]; simp only; rw [h2]⟩

/-- C5: when both resolution strategies fail (the lookup fails or returns no IPv4
address, and the IP-echo request or the reading of its body fails), the cycle calls
`updateGoDaddyDNS` zero times, sends no write to the provider, calls `saveLastIP` zero
times, and leaves the state store as it was. -/
theorem checkAndUpdate_resolver_failure (env : Env) (config : Config) (w : World)
    (hdns : (∃ e, env.lookupIP (fqdn config.Domain config.RecordName) = Except.error e) ∨
      (∃ ips, env.lookupIP (fqdn config.Domain config.RecordName) = Except.ok ips ∧
        ∀ ip ∈ ips, To4 ip = none))
    (hapi : (∃ e, env.httpGet ipCheckURL = Except.error e) ∨
      (∃ resp e, env.httpGet ipCheckURL = Except.ok resp ∧ resp.BodyErr = some e)) :
    updateCalls (checkAndUpdate env config w).trace = updateCalls w.trace ∧
    providerWrites (checkAndUpdate env config w).trace = providerWrites w.trace ∧
    storeWrites (checkAndUpdate env config w).trace = storeWrites w.trace ∧
    (checkAndUpdate env config w).lastIP = w.lastIP := by
  obtain ⟨e, he⟩ := getCurrentIP_fails env config w hdns hapi
  rw [checkAndUpdate_error env config w e he]
  refine ⟨?_, ?_, ?_, ?_⟩
  · rw [logMessage_trace, updateCalls_append, getCurrentIP_updateCalls]
    simp [updateCalls]
  · rw [logMessage_trace, providerWrites_append, getCurrentIP_providerWrites]
    simp [providerWrites]
  · rw [logMessage_trace, storeWrites_append, getCurrentIP_storeWrites]
    simp [storeWrites]
  · rw [logMessage_lastIP, getCurrentIP_lastIP]

theorem checkAndUpdate_resolver_failure_witness :
    updateCalls (checkAndUpdate envNoResolver exampleConfig ⟨some "203.0.113.1", []⟩).trace = [] ∧
    providerWrites (checkAndUpdate envNoResolver exampleConfig ⟨some "203.0.113.1", []⟩).trace
      = [] ∧
    storeWrites (checkAndUpdate envNoResolver exampleConfig ⟨some "203.0.113.1", []⟩).trace = [] ∧
    (checkAndUpdate envNoResolver exampleConfig ⟨some "203.0.113.1", []⟩).lastIP
      = some "203.0.113.1" :=
  checkAndUpdate_resolver_failure envNoResolver exampleConfig ⟨some "203.0.113.1", []⟩
    (Or.inl ⟨"no such host", rfl⟩) (Or.inl ⟨"ip echo unreachable", rfl⟩)

/-- C6: `getCurrentIP` tries DNS first and the IP-echo service second.  If the lookup
returns a list whose first entry with an IPv4 form is `ip` (the entries before it have
none), the result is the dotted form of `ip` and no request goes to the IP-echo
service.  If the lookup fails or returns no entry with an IPv4 form, the result is the
trimmed body of the IP-echo response.  `getCurrentIP` fails only when both strategies
fail. -/
theorem getCurrentIP_strategy_order (env : Env) (config : Config) (w : World) :
    (∀ (pre : List IP) (ip : IP) (post : List IP) (v4 : IPv4),
      env.lookupIP (fqdn config.Domain config.RecordName) = Except.ok (pre ++ ip :: post) →
      (∀ p ∈ pre, To4 p = none) → To4 ip = some v4 →
      (getCurrentIP env config w).1 = Except.ok v4.String ∧
      echoCalls (getCurrentIP env config w).2.trace = echoCalls w.trace) ∧
    (∀ resp : Response,
      ((∃ e, env.lookupIP (fqdn config.Domain config.RecordName) = Except.error e) ∨
        (∃ ips, env.lookupIP (fqdn config.Domain config.RecordName) = Except.ok ips ∧
          ∀ ip ∈ ips, To4 ip = none)) →
      env.httpGet ipCheckURL = Except.ok resp → resp.BodyErr = none →
      (getCurrentIP env config w).1 = Except.ok (TrimSpace resp.Body)) ∧
    (∀ e, (getCurrentIP env config w).1 = Except.error e →
      ((∃ e1, env.lookupIP (fqdn config.Domain config.RecordName) = Except.error e1) ∨
        (∃ ips, env.lookupIP (fqdn config.Domain config.RecordName) = Except.ok ips ∧
          ∀ ip ∈ ips, To4 ip = none)) ∧
      ((∃ e2, env.httpGet ipCheckURL = Except.error e2) ∨
        (∃ resp e2, env.httpGet ipCheckURL = Except.ok resp ∧ resp.BodyErr = some e2))) := by
  refine ⟨?_, ?_, ?_⟩
  · intro pre ip post v4 hlook hpre hip
    have h1 : (getCurrentIPFromDNS env config.Domain config.RecordName w).1
        = Except.ok v4.String := by
      rw [getCurrentIPFromDNS_fst_eq, hlook]
      simp only
      rw [findSome_To4_first pre post ip v4 hpre hip]
    rw [getCurrentIP_eq, h1]
    simp [logMessage_trace, emit_trace, echoCalls_append]
    simp [echoCalls]
  · intro resp hdns hget hbody
    obtain ⟨e1, h1⟩ := getCurrentIPFromDNS_fails env config.Domain config.RecordName w hdns
    have h2 : (getCurrentIPFromAPI env w).1 = Except.ok (TrimSpace resp.Body) := by
      rw [getCurrentIPFromAPI_fst_eq, hget]
      simp only
      rw [hbody]
    rw [getCurrentIP_eq, h1]
    simp only
    rw [h2]
  · intro e he
    rw [getCurrentIP_eq, getCurrentIPFromDNS_fst_eq, getCurrentIPFromAPI_fst_eq] at he
    constructor
    · cases hl : env.lookupIP (fqdn config.Domain config.RecordName) with
      | error e1 => exact Or.inl ⟨e1, rfl⟩
      | ok ips =>
        refine Or.inr ⟨ips, rfl, ?_⟩
        rw [hl] at he
        simp only at he
        cases hf : ips.findSome? To4 with
        | some v4 => rw [hf] at he; simp at he
        | none => exact fun ip hip => (List.findSome?_eq_none_iff.mp hf) ip hip
    · cases hg : env.httpGet ipCheckURL with
      | error e2 => exact Or.inl ⟨e2, rfl⟩
      | ok resp =>
        cases hb : resp.BodyErr with
        | some e2 => exact Or.inr ⟨resp, e2, rfl, hb⟩
        | none =>
          exfalso
          rw [hg] at he
          simp only at he
          rw [hb] at he
          split at he <;> simp at he

theorem getCurrentIP_strategy_order_witness :
    ((getCurrentIP exampleEnv exampleConfig ⟨none, []⟩).1 = Except.ok "203.0.113.9" ∧
      echoCalls (getCurrentIP exampleEnv exampleConfig ⟨none, []⟩).2.trace = []) ∧
    (getCurrentIP envEcho exampleConfig ⟨none, []⟩).1 = Except.ok "198.51.100.7" ∧
    (((∃ e1, envNoResolver.lookupIP "example.com" = Except.error e1) ∨
        (∃ ips, envNoResolver.lookupIP "example.com" = Except.ok ips ∧
          ∀ ip ∈ ips, To4 ip = none)) ∧
      ((∃ e2, envNoResolver.httpGet ipCheckURL = Except.error e2) ∨
        (∃ resp e2, envNoResolver.httpGet ipCheckURL = Except.ok resp ∧
          resp.BodyErr = some e2))) :=
  ⟨(getCurrentIP_strategy_order exampleEnv exampleConfig ⟨none, []⟩).1
      [[32, 1, 13, 184, 0, 0, 0, 0, 0, 0, 0, 0, 0, 0, 0, 1]] [203, 0, 113, 9] []
      ⟨203, 0, 113, 9⟩ rfl (by decide) rfl,
    (getCurrentIP_strategy_order envEcho exampleConfig ⟨none, []⟩).2.1
      ⟨200, " 198.51.100.7\n", none⟩
      (Or.inr ⟨[[32, 1, 13, 184, 0, 0, 0, 0, 0, 0, 0, 0, 0, 0, 0, 1]], rfl, by decide⟩) rfl rfl,
    (getCurrentIP_strategy_order envNoResolver exampleConfig ⟨none, []⟩).2.2
      "ip echo unreachable" (by decide)⟩

/-- C7: the name `getCurrentIPFromDNS` hands to the resolver is the bare domain when
the record name is empty or `@`, and record name, dot, domain otherwise; it is the only
name looked up. -/
theorem getCurrentIPFromDNS_fqdn (env : Env) (domain recordName : String) (w : World) :
    fqdn domain recordName
      = (if recordName = "" ∨ recordName = "@" then domain
          else recordName ++ "." ++ domain) ∧
    lookups (getCurrentIPFromDNS env domain recordName w).2.trace
      = lookups w.trace ++ [fqdn domain recordName] := by
  constructor
  · unfold fqdn
    by_cases h1 : recordName = "@" <;> by_cases h2 : recordName = "" <;> simp [h1, h2]
  · rw [getCurrentIPFromDNS_snd, emit_trace, lookups_append]
    simp [lookups]

/-! ## Configuration -/

/-- C8: for a configuration file that parses into `config`, `loadConfig` fails exactly
when the key is empty or the key placeholder, the secret is empty or the secret
placeholder, or the domain is empty.  Otherwise it returns `config` with an empty record
name replaced by `@`, an interval `≤ 0` by 5 and a TTL `≤ 0` by 600, the other fields
as parsed; what it returns has non-empty, non-placeholder credentials, a non-empty
domain and record name, and a positive interval and TTL. -/
theorem loadConfig_validation (env : Env) (filename file : String) (config : Config)
    (hread : env.readFile filename = Except.ok file)
    (hparse : env.jsonUnmarshalConfig file = Except.ok config) :
    ((∃ err, loadConfig env filename = Except.error err) ↔
      ((config.GoDaddyAPIKey = "" ∨ config.GoDaddyAPIKey = "YOUR_API_KEY_HERE") ∨
        (config.GoDaddyAPISecret = "" ∨ config.GoDaddyAPISecret = "YOUR_API_SECRET_HERE") ∨
        config.Domain = "")) ∧
    (¬ ((config.GoDaddyAPIKey = "" ∨ config.GoDaddyAPIKey = "YOUR_API_KEY_HERE") ∨
        (config.GoDaddyAPISecret = "" ∨ config.GoDaddyAPISecret = "YOUR_API_SECRET_HERE") ∨
        config.Domain = "") →
      loadConfig env filename = Except.ok
        ⟨config.GoDaddyAPIKey, config.GoDaddyAPISecret, config.Domain,
          if config.RecordName = "" then "@" else config.RecordName,
          if config.CheckIntervalMinutes ≤ 0 then 5 else config.CheckIntervalMinutes,
          if config.TTL ≤ 0 then 600 else config.TTL⟩) ∧
    (∀ c, loadConfig env filename = Except.ok c →
      c.GoDaddyAPIKey ≠ "" ∧ c.GoDaddyAPIKey ≠ "YOUR_API_KEY_HERE" ∧
      c.GoDaddyAPISecret ≠ "" ∧ c.GoDaddyAPISecret ≠ "YOUR_API_SECRET_HERE" ∧
      c.Domain ≠ "" ∧ c.RecordName ≠ "" ∧ 0 < c.CheckIntervalMinutes ∧ 0 < c.TTL) := by
  have hval : loadConfig env filename =
      if (config.GoDaddyAPIKey = "" ∨ config.GoDaddyAPIKey = "YOUR_API_KEY_HERE") ∨
        (config.GoDaddyAPISecret = "" ∨ config.GoDaddyAPISecret = "YOUR_API_SECRET_HERE") ∨
        config.Domain = "" then
        Except.error
          (if config.GoDaddyAPIKey = "" ∨ config.GoDaddyAPIKey = "YOUR_API_KEY_HERE" then
            "godaddy_api_key not configured"
          else if config.GoDaddyAPISecret = "" ∨
              config.GoDaddyAPISecret = "YOUR_API_SECRET_HERE" then
            "godaddy_api_secret not configured"
          else "domain not configured")
      else
        Except.ok
          ⟨config.GoDaddyAPIKey, config.GoDaddyAPISecret, config.Domain,
            if config.RecordName = "" then "@" else config.RecordName,
            if config.CheckIntervalMinutes ≤ 0 then 5 else config.CheckIntervalMinutes,
            if config.TTL ≤ 0 then 600 else config.TTL⟩ := by
    unfold loadConfig
    rw [hread]
    simp only
    rw [hparse]
    simp only
    by_cases hk : config.GoDaddyAPIKey = "" ∨ config.GoDaddyAPIKey = "YOUR_API_KEY_HERE"
    · simp [hk]
    · by_cases hs : config.GoDaddyAPISecret = "" ∨
          config.GoDaddyAPISecret = "YOUR_API_SECRET_HERE"
      · simp [hk, hs]
      · by_cases hd : config.Domain = ""
        · simp [hk, hs, hd]
        · have hnot : ¬ ((config.GoDaddyAPIKey = "" ∨
              config.GoDaddyAPIKey = "YOUR_API_KEY_HERE") ∨
              (config.GoDaddyAPISecret = "" ∨
                config.GoDaddyAPISecret = "YOUR_API_SECRET_HERE") ∨
              config.Domain = "") := by tauto
          rw [if_neg hnot]
          simp only [if_neg hk, if_neg hs, if_neg hd]
          by_cases hr : config.RecordName = "" <;>
            by_cases hc : config.CheckIntervalMinutes ≤ 0 <;>
            by_cases ht : config.TTL ≤ 0 <;> simp [hr, hc, ht]
  refine ⟨?_, ?_, ?_⟩
  · constructor
    · rintro ⟨err, herr⟩
      by_contra hnot
      rw [hval, if_neg hnot] at herr
      simp at herr
    · intro hbad
      rw [hval, if_pos hbad]
      exact ⟨_, rfl⟩
  · intro hok
    rw [hval, if_neg hok]
  · intro c hc
    by_cases hbad : (config.GoDaddyAPIKey = "" ∨ config.GoDaddyAPIKey = "YOUR_API_KEY_HERE") ∨
        (config.GoDaddyAPISecret = "" ∨ config.GoDaddyAPISecret = "YOUR_API_SECRET_HERE") ∨
        config.Domain = ""
    · rw [hval, if_pos hbad] at hc
      simp at hc
    · rw [hval, if_neg hbad] at hc
      have hc2 := Except.ok.inj hc
      subst hc2
      simp only [not_or] at hbad
      obtain ⟨⟨hk1, hk2⟩, ⟨hs1, hs2⟩, hd⟩ := hbad
      refine ⟨hk1, hk2, hs1, hs2, hd, ?_, ?_, ?_⟩
      · show (if config.RecordName = "" then "@" else config.RecordName) ≠ ""
        by_cases hr : config.RecordName = ""
        · rw [if_pos hr]; decide
        · rw [if_neg hr]; exact hr
      · show 0 < (if config.CheckIntervalMinutes ≤ 0 then 5 else config.CheckIntervalMinutes)
        by_cases hi : config.CheckIntervalMinutes ≤ 0
        · rw [if_pos hi]; decide
        · rw [if_neg hi]; omega
      · show 0 < (if config.TTL ≤ 0 then 600 else config.TTL)
        by_cases ht : config.TTL ≤ 0
        · rw [if_pos ht]; decide
        · rw [if_neg ht]; omega

theorem loadConfig_validation_witness :
    loadConfig exampleEnv "config.json"
      = Except.ok ⟨"key", "secret", "example.com", "@", 5, 600⟩ :=
  (loadConfig_validation exampleEnv "config.json" "config"
    ⟨"key", "secret", "example.com", "", 0, 0⟩ rfl rfl).2.1 (by decide)

/-! ## Trimming and the dotted form -/

theorem dropWhile_eq_self_of_head (p : Char → Bool) (a : Char) (l : List Char)
    (h : p a = false) : (a :: l).dropWhile p = a :: l := by
  simp [List.dropWhile, h]

theorem head_of_dropWhile_eq_self (p : Char → Bool) (a : Char) (l : List Char)
    (h : (a :: l).dropWhile p = a :: l) : p a = false := by
  cases hp : p a with
  | false => rfl
  | true =>
    exfalso
    rw [List.dropWhile_cons_of_pos hp] at h
    have hlen := (List.dropWhile_suffix p (l := l)).length_le
    rw [h] at hlen
    simp at hlen

/-- Dropping trailing characters keeps a list free of leading ones to drop. -/
theorem dropWhile_rdropWhile (p : Char → Bool) (m : List Char) (h : m.dropWhile p = m) :
    (m.rdropWhile p).dropWhile p = m.rdropWhile p := by
  cases m with
  | nil => simp
  | cons a m' =>
    have hpa : p a = false := head_of_dropWhile_eq_self p a m' h
    have hpre : (a :: m').rdropWhile p <+: a :: m' := List.rdropWhile_prefix p (a :: m')
    have hne : (a :: m').rdropWhile p ≠ [] := by
      intro hnil
      rw [List.rdropWhile_eq_nil_iff] at hnil
      have := hnil a (List.mem_cons_self a m')
      rw [hpa] at this
      exact Bool.false_ne_true this
    cases ht : (a :: m').rdropWhile p with
    | nil => exact absurd ht hne
    | cons b t =>
      rw [ht] at hpre
      have hb : b = a := (List.cons_prefix_cons.mp hpre).1
      subst hb
      exact dropWhile_eq_self_of_head p b t hpa

theorem TrimSpace_data (s : String) :
    (TrimSpace s).data = (s.data.dropWhile isSpace).rdropWhile isSpace := rfl

/-- Go `strings.TrimSpace` leaves its own output as it is. -/
theorem TrimSpace_idem (s : String) : TrimSpace (TrimSpace s) = TrimSpace s := by
  apply String.ext
  rw [TrimSpace_data (TrimSpace s), TrimSpace_data s,
    dropWhile_rdropWhile isSpace _ (List.dropWhile_idempotent isSpace s.data),
    List.rdropWhile_idempotent]

/-- A string without white space is left as it is. -/
theorem TrimSpace_of_no_space (s : String) (h : ∀ c ∈ s.data, isSpace c = false) :
    TrimSpace s = s := by
  apply String.ext
  rw [TrimSpace_data]
  have h1 : s.data.dropWhile isSpace = s.data := by
    cases hs : s.data with
    | nil => rfl
    | cons a l =>
      exact dropWhile_eq_self_of_head isSpace a l (h a (by rw [hs]; exact List.mem_cons_self a l))
  rw [h1, List.rdropWhile_eq_self_iff]
  intro hl
  rw [h _ (List.getLast_mem hl)]
  exact Bool.false_ne_true

set_option maxRecDepth 1000000 in
theorem octetFacts_all : ∀ v : Fin 256, octetFacts v = true := by decide

theorem isOctet_ubtoa (v : Fin 256) : isOctet (ubtoa v) = true := by
  have h := octetFacts_all v
  simp only [octetFacts, Bool.and_eq_true] at h
  exact h.1

theorem ubtoa_chars (v : Fin 256) (c : Char) (hc : c ∈ ubtoa v) :
    isSpace c = false ∧ c ≠ '.' := by
  have h := octetFacts_all v
  simp only [octetFacts, Bool.and_eq_true, List.all_eq_true] at h
  have hc2 := h.2 c hc
  simp at hc2
  exact hc2

theorem splitDots_no_dot (a : List Char) (h : ∀ c ∈ a, c ≠ '.') : splitDots a = [a] := by
  induction a with
  | nil => rfl
  | cons c cs ih =>
    have hc : c ≠ '.' := h c (List.mem_cons_self c cs)
    have hcs : ∀ x ∈ cs, x ≠ '.' := fun x hx => h x (List.mem_cons_of_mem c hx)
    simp [splitDots, hc, ih hcs]

theorem splitDots_append_dot (a rest : List Char) (h : ∀ c ∈ a, c ≠ '.') :
    splitDots (a ++ '.' :: rest) = a :: splitDots rest := by
  induction a with
  | nil => simp [splitDots]
  | cons c cs ih =>
    have hc : c ≠ '.' := h c (List.mem_cons_self c cs)
    have hcs : ∀ x ∈ cs, x ≠ '.' := fun x hx => h x (List.mem_cons_of_mem c hx)
    simp [splitDots, hc, ih hcs]

/-- The dotted form of four bytes is a valid dotted-decimal IPv4 address. -/
theorem isDottedDecimalIPv4_String (ip : IPv4) : isDottedDecimalIPv4 ip.String = true := by
  have hdot : ∀ v : Fin 256, ∀ c ∈ ubtoa v, c ≠ '.' := fun v c hc => (ubtoa_chars v c hc).2
  unfold isDottedDecimalIPv4 IPv4.String
  simp only
  rw [splitDots_append_dot _ _ (hdot ip.a), splitDots_append_dot _ _ (hdot ip.b),
    splitDots_append_dot _ _ (hdot ip.c), splitDots_no_dot _ (hdot ip.d)]
  simp [isOctet_ubtoa]

/-- The dotted form of four bytes holds no white space. -/
theorem TrimSpace_String (ip : IPv4) : TrimSpace ip.String = ip.String := by
  apply TrimSpace_of_no_space
  intro c hc
  unfold IPv4.String at hc
  simp only [List.mem_append, List.mem_cons] at hc
  have hdot : isSpace '.' = false := by decide
  rcases hc with h | h | h | h | h | h | h
  · exact (ubtoa_chars _ c h).1
  · rw [h]; exact hdot
  · exact (ubtoa_chars _ c h).1
  · rw [h]; exact hdot
  · exact (ubtoa_chars _ c h).1
  · rw [h]; exact hdot
  · exact (ubtoa_chars _ c h).1

theorem getCurrentIPFromDNS_ok (env : Env) (d r : String) (w : World) (x : String)
    (h : (getCurrentIPFromDNS env d r w).1 = Except.ok x) :
    ∃ ips v4, env.lookupIP (fqdn d r) = Except.ok ips ∧ ips.findSome? To4 = some v4 ∧
      x = v4.String := by
  rw [getCurrentIPFromDNS_fst_eq] at h
  cases hl : env.lookupIP (fqdn d r) with
  | error e => rw [hl] at h; simp at h
  | ok ips =>
    rw [hl] at h
    simp only at h
    cases hf : ips.findSome? To4 with
    | none => rw [hf] at h; simp at h
    | some v4 =>
      rw [hf] at h
      exact ⟨ips, v4, rfl, hf, (Except.ok.inj h).symm⟩

theorem getCurrentIPFromAPI_ok (env : Env) (w : World) (x : String)
    (h : (getCurrentIPFromAPI env w).1 = Except.ok x) :
    ∃ resp, env.httpGet ipCheckURL = Except.ok resp ∧ resp.BodyErr = none ∧
      x = TrimSpace resp.Body := by
  rw [getCurrentIPFromAPI_fst_eq] at h
  cases hg : env.httpGet ipCheckURL with
  | error e => rw [hg] at h; simp at h
  | ok resp =>
    rw [hg] at h
    simp only at h
    cases hb : resp.BodyErr with
    | some e => rw [hb] at h; simp at h
    | none =>
      rw [hb] at h
      exact ⟨resp, rfl, hb, (Except.ok.inj h).symm⟩

/-- A successful `getCurrentIP` is a success of one of its two strategies. -/
theorem getCurrentIP_ok (env : Env) (config : Config) (w : World) (x : String)
    (h : (getCurrentIP env config w).1 = Except.ok x) :
    (getCurrentIPFromDNS env config.Domain config.RecordName w).1 = Except.ok x ∨
    ((∃ e, (getCurrentIPFromDNS env config.Domain config.RecordName w).1 = Except.error e) ∧
      (getCurrentIPFromAPI env w).1 = Except.ok x) := by
  rw [getCurrentIP_eq] at h
  cases hd : (getCurrentIPFromDNS env config.Domain config.RecordName w).1 with
  | ok ip =>
    rw [hd] at h
    exact Or.inl h
  | error e =>
    rw [hd] at h
    simp only at h
    refine Or.inr ⟨⟨e, rfl⟩, ?_⟩
    cases ha : (getCurrentIPFromAPI env w).1 with
    | error e2 => rw [ha] at h; simp at h
    | ok ip => rw [ha] at h; exact h

/-- What `getCurrentIP` returns has no leading or trailing white space. -/
theorem getCurrentIP_trimmed (env : Env) (config : Config) (w : World) (x : String)
    (h : (getCurrentIP env config w).1 = Except.ok x) : TrimSpace x = x := by
  rcases getCurrentIP_ok env config w x h with hd | ⟨_, ha⟩
  · obtain ⟨ips, v4, _, _, hx⟩ := getCurrentIPFromDNS_ok env _ _ w x hd
    rw [hx]
    exact TrimSpace_String v4
  · obtain ⟨resp, _, _, hx⟩ := getCurrentIPFromAPI_ok env w x ha
    rw [hx]
    exact TrimSpace_idem resp.Body

/-! ## The cycle -/

theorem storeWrites_log (m : String) : storeWrites [Event.log m] = [] := rfl

theorem updateCalls_log (m : String) : updateCalls [Event.log m] = [] := rfl

theorem providerWrites_log (m : String) : providerWrites [Event.log m] = [] := rfl

theorem storeWrites_writeFile (name data : String) :
    storeWrites [Event.writeFile name data] = [(name, data)] := rfl

theorem updateCalls_writeFile (name data : String) :
    updateCalls [Event.writeFile name data] = [] := rfl

theorem providerWrites_writeFile (name data : String) :
    providerWrites [Event.writeFile name data] = [] := rfl

/-- C1: in a cycle where the resolver returns `x`, the baseline (the provider's record,
or the cached value when the provider cannot be read) differs from `x`, and
`updateGoDaddyDNS` fails, `saveLastIP` is not called and the state store holds after
the cycle what it held before, so `getLastIP` reads the same value.  The hypotheses are
stated on the world the cycle starts in; the results they name do not depend on the
trace. -/
theorem checkAndUpdate_update_failure (env : Env) (config : Config) (w : World)
    (x e : String)
    (hres : (getCurrentIP env config w).1 = Except.ok x)
    (hbase : (fetchBaseline env config w).1 ≠ x)
    (hupd : (updateGoDaddyDNS env config x w).1 = Except.error e) :
    storeWrites (checkAndUpdate env config w).trace = storeWrites w.trace ∧
    (checkAndUpdate env config w).lastIP = w.lastIP ∧
    (getLastIP (checkAndUpdate env config w)).1 = (getLastIP w).1 := by
  have hlast : (checkAndUpdate env config w).lastIP = w.lastIP := by
    rw [checkAndUpdate_ok env config w x hres, if_neg (Ne.symm hbase), hupd]
    simp only
    rw [logMessage_lastIP, updateGoDaddyDNS_lastIP, logMessage_lastIP, fetchBaseline_lastIP,
      logMessage_lastIP, getCurrentIP_lastIP]
  refine ⟨?_, hlast, getLastIP_congr _ _ hlast⟩
  rw [checkAndUpdate_ok env config w x hres, if_neg (Ne.symm hbase), hupd]
  simp only
  rw [logMessage_trace, storeWrites_append, updateGoDaddyDNS_storeWrites, logMessage_trace,
    storeWrites_append, fetchBaseline_storeWrites, logMessage_trace, storeWrites_append,
    getCurrentIP_storeWrites]
  simp [storeWrites_log]

theorem checkAndUpdate_update_failure_witness :
    storeWrites (checkAndUpdate envUpdateFails exampleConfig ⟨some "198.51.100.1", []⟩).trace
      = [] ∧
    (checkAndUpdate envUpdateFails exampleConfig ⟨some "198.51.100.1", []⟩).lastIP
      = some "198.51.100.1" ∧
    (getLastIP (checkAndUpdate envUpdateFails exampleConfig ⟨some "198.51.100.1", []⟩)).1
      = "198.51.100.1" :=
  checkAndUpdate_update_failure envUpdateFails exampleConfig ⟨some "198.51.100.1", []⟩
    "203.0.113.9" "API request failed with status 500: boom"
    (by decide) (by decide) (by decide)

/-- When the resolver's answer equals the baseline, the cycle writes it to the store. -/
theorem checkAndUpdate_same_ip_aux (env : Env) (config : Config) (w : World) (x : String)
    (hres : (getCurrentIP env config w).1 = Except.ok x)
    (hbase : (fetchBaseline env config w).1 = x) :
    storeWrites (checkAndUpdate env config w).trace
      = storeWrites w.trace ++ [(lastIPFile, x)] := by
  rw [checkAndUpdate_ok env config w x hres, if_pos hbase.symm]
  rw [saveLastIP_trace, storeWrites_append, logMessage_trace, storeWrites_append,
    fetchBaseline_storeWrites, logMessage_trace, storeWrites_append,
    getCurrentIP_storeWrites]
  simp [storeWrites_log, storeWrites_writeFile]

/-- C2: in a cycle where the resolver returns `x` and the baseline equals `x`,
`updateGoDaddyDNS` is not called, no write goes to the provider, and `saveLastIP` is
called exactly once, with `x`; when that write succeeds the state store holds `x` and
`getLastIP` reads `x`, whatever the store held before. -/
theorem checkAndUpdate_same_ip (env : Env) (config : Config) (w : World) (x : String)
    (hres : (getCurrentIP env config w).1 = Except.ok x)
    (hbase : (fetchBaseline env config w).1 = x) :
    updateCalls (checkAndUpdate env config w).trace = updateCalls w.trace ∧
    providerWrites (checkAndUpdate env config w).trace = providerWrites w.trace ∧
    storeWrites (checkAndUpdate env config w).trace
      = storeWrites w.trace ++ [(lastIPFile, x)] ∧
    (env.writeFile lastIPFile x = WriteResult.ok →
      (checkAndUpdate env config w).lastIP = some x ∧
      (getLastIP (checkAndUpdate env config w)).1 = x) := by
  have heq : checkAndUpdate env config w
      = (saveLastIP env x (logMessage "IP matches GoDaddy DNS, no update needed"
          (fetchBaseline env config
            (logMessage ("Current IP: " ++ x) (getCurrentIP env config w).2)).2)).2 := by
    rw [checkAndUpdate_ok env config w x hres, if_pos hbase.symm]
  rw [heq]
  refine ⟨?_, ?_, ?_, ?_⟩
  · rw [saveLastIP_trace, updateCalls_append, logMessage_trace, updateCalls_append,
      fetchBaseline_updateCalls, logMessage_trace, updateCalls_append,
      getCurrentIP_updateCalls]
    simp [updateCalls_log, updateCalls_writeFile]
  · rw [saveLastIP_trace, providerWrites_append, logMessage_trace, providerWrites_append,
      fetchBaseline_providerWrites, logMessage_trace, providerWrites_append,
      getCurrentIP_providerWrites]
    simp [providerWrites_log, providerWrites_writeFile]
  · rw [saveLastIP_trace, storeWrites_append, logMessage_trace, storeWrites_append,
      fetchBaseline_storeWrites, logMessage_trace, storeWrites_append,
      getCurrentIP_storeWrites]
    simp [storeWrites_log, storeWrites_writeFile]
  · intro hwrite
    have hlast : (saveLastIP env x (logMessage "IP matches GoDaddy DNS, no update needed"
        (fetchBaseline env config
          (logMessage ("Current IP: " ++ x) (getCurrentIP env config w).2)).2)).2.lastIP
        = some x := by
      rw [saveLastIP_lastIP, hwrite]
    refine ⟨hlast, ?_⟩
    rw [getLastIP_fst, hlast]
    exact getCurrentIP_trimmed env config w x hres

theorem checkAndUpdate_same_ip_witness :
    updateCalls (checkAndUpdate envSame exampleConfig ⟨none, []⟩).trace = [] ∧
    providerWrites (checkAndUpdate envSame exampleConfig ⟨none, []⟩).trace = [] ∧
    storeWrites (checkAndUpdate envSame exampleConfig ⟨none, []⟩).trace
      = [("last_ip.txt", "203.0.113.9")] ∧
    (checkAndUpdate envSame exampleConfig ⟨none, []⟩).lastIP = some "203.0.113.9" ∧
    (getLastIP (checkAndUpdate envSame exampleConfig ⟨none, []⟩)).1 = "203.0.113.9" :=
  have h := checkAndUpdate_same_ip envSame exampleConfig ⟨none, []⟩ "203.0.113.9"
    (by decide) (by decide)
  ⟨h.1, h.2.1, h.2.2.1, h.2.2.2 rfl⟩

/-- C3: in a cycle where the resolver returns `x`, the provider read returns a record
whose data `d` differs from `x`, and the provider update succeeds, `updateGoDaddyDNS` is
called exactly once, with the one-element record list holding `x` and the configured
TTL, exactly one `PUT` is sent (its body that list, marshalled), `saveLastIP` is called
once with `x`, and when the file write succeeds the state store holds exactly `x`.
The hypotheses are stated on the world the cycle starts in; the results they name do
not depend on the trace. -/
theorem checkAndUpdate_changed_ip (env : Env) (config : Config) (w : World) (x d : String)
    (hres : (getCurrentIP env config w).1 = Except.ok x)
    (hread : (getGoDaddyDNS env config w).1 = Except.ok d)
    (hne : d ≠ x)
    (hupd : (updateGoDaddyDNS env config x w).1 = Except.ok ()) :
    updateCalls (checkAndUpdate env config w).trace
      = updateCalls w.trace ++ [[⟨x, config.TTL⟩]] ∧
    (∃ jsonData, env.jsonMarshal [⟨x, config.TTL⟩] = Except.ok jsonData ∧
      providerWrites (checkAndUpdate env config w).trace
        = providerWrites w.trace ++
          [⟨"PUT", recordURL config,
            [("Content-Type", "application/json"), ("Authorization", authHeader config)],
            some jsonData⟩]) ∧
    storeWrites (checkAndUpdate env config w).trace
      = storeWrites w.trace ++ [(lastIPFile, x)] ∧
    (env.writeFile lastIPFile x = WriteResult.ok →
      (checkAndUpdate env config w).lastIP = some x ∧
      (getLastIP (checkAndUpdate env config w)).1 = x) := by
  have hbase : (fetchBaseline env config w).1 = d := fetchBaseline_fst_ok env config w d hread
  have hne2 : ¬ x = (fetchBaseline env config w).1 := by
    rw [hbase]
    exact Ne.symm hne
  generalize hw4 : logMessage ("IP changed from " ++ (fetchBaseline env config w).1 ++ " to " ++ x)
      (fetchBaseline env config
        (logMessage ("Current IP: " ++ x) (getCurrentIP env config w).2)).2 = w4
  have hw4u : updateCalls w4.trace = updateCalls w.trace := by
    rw [← hw4, logMessage_trace, updateCalls_append, fetchBaseline_updateCalls,
      logMessage_trace, updateCalls_append, getCurrentIP_updateCalls]
    simp [updateCalls_log]
  have hw4p : providerWrites w4.trace = providerWrites w.trace := by
    rw [← hw4, logMessage_trace, providerWrites_append, fetchBaseline_providerWrites,
      logMessage_trace, providerWrites_append, getCurrentIP_providerWrites]
    simp [providerWrites_log]
  have hw4s : storeWrites w4.trace = storeWrites w.trace := by
    rw [← hw4, logMessage_trace, storeWrites_append, fetchBaseline_storeWrites,
      logMessage_trace, storeWrites_append, getCurrentIP_storeWrites]
    simp [storeWrites_log]
  have hupd4 : (updateGoDaddyDNS env config x w4).1 = Except.ok () := by
    rw [updateGoDaddyDNS_fst env config x w4 w]
    exact hupd
  have hsave : ∀ w6 : World,
      (match (saveLastIP env x w).1 with
        | Except.error err => logMessage ("Error saving last IP: " ++ err) (saveLastIP env x w6).2
        | Except.ok _ => (saveLastIP env x w6).2).lastIP = (saveLastIP env x w6).2.lastIP ∧
      ∃ tail, (match (saveLastIP env x w).1 with
        | Except.error err => logMessage ("Error saving last IP: " ++ err) (saveLastIP env x w6).2
        | Except.ok _ => (saveLastIP env x w6).2).trace
          = w6.trace ++ [Event.writeFile lastIPFile x] ++ tail ∧
        updateCalls tail = [] ∧ providerWrites tail = [] ∧ storeWrites tail = [] := by
    intro w6
    cases (saveLastIP env x w).1 with
    | error err =>
      refine ⟨rfl, [Event.log ("Error saving last IP: " ++ err)], ?_, rfl, rfl, rfl⟩
      simp only
      rw [logMessage_trace, saveLastIP_trace]
    | ok u =>
      refine ⟨rfl, [], ?_, rfl, rfl, rfl⟩
      simp only
      rw [saveLastIP_trace, List.append_nil]
  have heq : checkAndUpdate env config w =
      match (saveLastIP env x w).1 with
      | Except.error err =>
        logMessage ("Error saving last IP: " ++ err)
          (saveLastIP env x (logMessage "Successfully updated GoDaddy DNS"
            (updateGoDaddyDNS env config x w4).2)).2
      | Except.ok _ =>
        (saveLastIP env x (logMessage "Successfully updated GoDaddy DNS"
          (updateGoDaddyDNS env config x w4).2)).2 := by
    rw [checkAndUpdate_ok env config w x hres, if_neg hne2, hupd, hw4]
  obtain ⟨hl, tail, htr, htu, htp, hts⟩ :=
    hsave (logMessage "Successfully updated GoDaddy DNS" (updateGoDaddyDNS env config x w4).2)
  obtain ⟨jsonData, hjson, hput⟩ := updateGoDaddyDNS_ok env config x w4 hupd4
  rw [heq]
  refine ⟨?_, ⟨jsonData, hjson, ?_⟩, ?_, ?_⟩
  · rw [htr, updateCalls_append, updateCalls_append, logMessage_trace, updateCalls_append,
      updateGoDaddyDNS_updateCalls, hw4u, htu]
    simp [updateCalls_log, updateCalls_writeFile]
  · rw [htr, providerWrites_append, providerWrites_append, logMessage_trace,
      providerWrites_append, hput, hw4p, htp]
    simp [providerWrites_log, providerWrites_writeFile]
  · rw [htr, storeWrites_append, storeWrites_append, logMessage_trace, storeWrites_append,
      updateGoDaddyDNS_storeWrites, hw4s, hts]
    simp [storeWrites_log, storeWrites_writeFile]
  · intro hwrite
    have hlast : (match (saveLastIP env x w).1 with
        | Except.error err =>
          logMessage ("Error saving last IP: " ++ err)
            (saveLastIP env x (logMessage "Successfully updated GoDaddy DNS"
              (updateGoDaddyDNS env config x w4).2)).2
        | Except.ok _ =>
          (saveLastIP env x (logMessage "Successfully updated GoDaddy DNS"
            (updateGoDaddyDNS env config x w4).2)).2).lastIP = some x := by
      rw [hl, saveLastIP_lastIP, hwrite]
    refine ⟨hlast, ?_⟩
    rw [getLastIP_fst, hlast]
    exact getCurrentIP_trimmed env config w x hres

theorem checkAndUpdate_changed_ip_witness :
    updateCalls (checkAndUpdate exampleEnv exampleConfig ⟨none, []⟩).trace
      = [[⟨"203.0.113.9", 600⟩]] ∧
    storeWrites (checkAndUpdate exampleEnv exampleConfig ⟨none, []⟩).trace
      = [("last_ip.txt", "203.0.113.9")] ∧
    (checkAndUpdate exampleEnv exampleConfig ⟨none, []⟩).lastIP = some "203.0.113.9" ∧
    (getLastIP (checkAndUpdate exampleEnv exampleConfig ⟨none, []⟩)).1 = "203.0.113.9" :=
  have h := checkAndUpdate_changed_ip exampleEnv exampleConfig ⟨none, []⟩
    "203.0.113.9" "203.0.113.1" (by decide) (by decide) (by decide) (by decide)
  ⟨h.1, h.2.2.1, h.2.2.2 rfl⟩

/-- Calls of `updateGoDaddyDNS` in a cycle whose resolver returned `x`: none when `x`
equals the baseline, one otherwise. -/
theorem checkAndUpdate_updateCalls (env : Env) (config : Config) (w : World) (x : String)
    (hres : (getCurrentIP env config w).1 = Except.ok x) :
    updateCalls (checkAndUpdate env config w).trace
      = updateCalls w.trace ++
        (if x = (fetchBaseline env config w).1 then [] else [[⟨x, config.TTL⟩]]) := by
  generalize hw4 : logMessage ("IP changed from " ++ (fetchBaseline env config w).1 ++ " to " ++ x)
      (fetchBaseline env config
        (logMessage ("Current IP: " ++ x) (getCurrentIP env config w).2)).2 = w4
  have hw4u : updateCalls w4.trace = updateCalls w.trace := by
    rw [← hw4, logMessage_trace, updateCalls_append, fetchBaseline_updateCalls,
      logMessage_trace, updateCalls_append, getCurrentIP_updateCalls]
    simp [updateCalls_log]
  rw [checkAndUpdate_ok env config w x hres, hw4]
  by_cases hx : x = (fetchBaseline env config w).1
  · rw [if_pos hx, if_pos hx, saveLastIP_trace, updateCalls_append, logMessage_trace,
      updateCalls_append, fetchBaseline_updateCalls, logMessage_trace, updateCalls_append,
      getCurrentIP_updateCalls]
    simp [updateCalls_log, updateCalls_writeFile]
  · rw [if_neg hx, if_neg hx]
    cases (updateGoDaddyDNS env config x w).1 with
    | error err =>
      simp only
      rw [logMessage_trace, updateCalls_append, updateGoDaddyDNS_updateCalls, hw4u]
      simp [updateCalls_log]
    | ok u =>
      simp only
      cases (saveLastIP env x w).1 with
      | error err =>
        simp only
        rw [logMessage_trace, updateCalls_append, saveLastIP_trace, updateCalls_append,
          logMessage_trace, updateCalls_append, updateGoDaddyDNS_updateCalls, hw4u]
        simp [updateCalls_log, updateCalls_writeFile]
      | ok u2 =>
        simp only
        rw [saveLastIP_trace, updateCalls_append,
          logMessage_trace, updateCalls_append, updateGoDaddyDNS_updateCalls, hw4u]
        simp [updateCalls_log, updateCalls_writeFile]

/-- C4: in a cycle where the resolver returns `x` and `getGoDaddyDNS` fails, the
baseline is what `getLastIP` returns (the empty string when the file is absent), the
cycle goes on to the comparison, and `updateGoDaddyDNS` is called with `x` exactly when
`x` differs from that cached value (when they are equal the cycle refreshes the store
instead); with an empty store and a non-empty `x` the update is attempted. -/
theorem checkAndUpdate_read_failure (env : Env) (config : Config) (w : World) (x e : String)
    (hres : (getCurrentIP env config w).1 = Except.ok x)
    (hread : (getGoDaddyDNS env config w).1 = Except.error e) :
    (fetchBaseline env config w).1 = (getLastIP w).1 ∧
    (w.lastIP = none → (getLastIP w).1 = "") ∧
    updateCalls (checkAndUpdate env config w).trace
      = updateCalls w.trace ++ (if x = (getLastIP w).1 then [] else [[⟨x, config.TTL⟩]]) ∧
    (x = (getLastIP w).1 →
      storeWrites (checkAndUpdate env config w).trace
        = storeWrites w.trace ++ [(lastIPFile, x)]) ∧
    (w.lastIP = none → x ≠ "" →
      updateCalls (checkAndUpdate env config w).trace
        = updateCalls w.trace ++ [[⟨x, config.TTL⟩]]) := by
  have hbase : (fetchBaseline env config w).1 = (getLastIP w).1 :=
    fetchBaseline_fst_error env config w e hread
  have hnone : w.lastIP = none → (getLastIP w).1 = "" := by
    intro h
    rw [getLastIP_fst, h]
  have hcalls := checkAndUpdate_updateCalls env config w x hres
  rw [hbase] at hcalls
  refine ⟨hbase, hnone, hcalls, ?_, ?_⟩
  · intro hx
    exact (checkAndUpdate_same_ip_aux env config w x hres (by rw [hbase]; exact hx.symm))
  · intro hw hx
    rw [hcalls, hnone hw, if_neg hx]

theorem checkAndUpdate_read_failure_witness :
    (fetchBaseline envReadFails exampleConfig ⟨none, []⟩).1 = "" ∧
    updateCalls (checkAndUpdate envReadFails exampleConfig ⟨none, []⟩).trace
      = [[⟨"203.0.113.9", 600⟩]] :=
  have h := checkAndUpdate_read_failure envReadFails exampleConfig ⟨none, []⟩
    "203.0.113.9" "API request failed with status 500: boom" (by decide) (by decide)
  ⟨h.1, h.2.2.2.2 rfl (by decide)⟩

/-! ## What the resolver returns -/

/-- C9, as amended: when `getCurrentIP` succeeds with `x` on the DNS path, `x` is a
non-empty, valid dotted-decimal IPv4 address; when it succeeds on the IP-echo path and
the response has status 200, `x` is the trimmed body of that response, whatever the
body is. -/
theorem getCurrentIP_result (env : Env) (config : Config) (w : World) (x : String)
    (h : (getCurrentIP env config w).1 = Except.ok x) :
    ((getCurrentIPFromDNS env config.Domain config.RecordName w).1 = Except.ok x ∧
      isDottedDecimalIPv4 x = true ∧ x ≠ "") ∨
    ((∃ e, (getCurrentIPFromDNS env config.Domain config.RecordName w).1 = Except.error e) ∧
      ∀ resp, env.httpGet ipCheckURL = Except.ok resp → resp.StatusCode = 200 →
        x = TrimSpace resp.Body) := by
  rcases getCurrentIP_ok env config w x h with hd | ⟨hd, ha⟩
  · left
    obtain ⟨ips, v4, _, _, hx⟩ := getCurrentIPFromDNS_ok env _ _ w x hd
    have hv : isDottedDecimalIPv4 x = true := by
      rw [hx]
      exact isDottedDecimalIPv4_String v4
    refine ⟨hd, hv, ?_⟩
    intro hempty
    rw [hempty] at hv
    exact absurd hv (by decide)
  · right
    refine ⟨hd, ?_⟩
    intro resp hresp _
    obtain ⟨resp2, hresp2, _, hx⟩ := getCurrentIPFromAPI_ok env w x ha
    rw [hresp] at hresp2
    rw [Except.ok.inj hresp2]
    exact hx

theorem getCurrentIP_result_witness :
    (isDottedDecimalIPv4 "203.0.113.9" = true ∧ "203.0.113.9" ≠ "") ∧
    "198.51.100.7" = TrimSpace " 198.51.100.7\n" :=
  ⟨((getCurrentIP_result exampleEnv exampleConfig ⟨none, []⟩ "203.0.113.9"
      (by decide)).resolve_right (fun hr => by
        obtain ⟨⟨e, he⟩, _⟩ := hr
        have hok : (getCurrentIPFromDNS exampleEnv exampleConfig.Domain
            exampleConfig.RecordName ⟨none, []⟩).1 = Except.ok "203.0.113.9" := by decide
        rw [hok] at he
        cases he)).2,
    ((getCurrentIP_result envEcho exampleConfig ⟨none, []⟩ "198.51.100.7"
      (by decide)).resolve_left (by decide)).2 ⟨200, " 198.51.100.7\n", none⟩ rfl rfl⟩

/-- C9 fails as stated: the lookup fails, the IP-echo service answers 200 with an empty
body, and `getCurrentIP` succeeds with the empty string, which is no IPv4 address. -/
theorem getCurrentIP_result_counterexample :
    (getCurrentIP envEmptyEcho exampleConfig ⟨none, []⟩).1 = Except.ok "" ∧
    isDottedDecimalIPv4 "" = false := by
  decide

/-! ## Logging of failures -/

/-- C10 at its failing input: the resolver returns `203.0.113.9`, the provider
publishes the same address, and writing `last_ip.txt` fails with `permission denied`.
`saveLastIP` is called and fails, and none of the four lines logged carries its error.
In the branch after a successful update the same failure is logged. -/
theorem checkAndUpdate_write_failure_unlogged :
    (saveLastIP envWriteFails "203.0.113.9" ⟨none, []⟩).1 = Except.error "permission denied" ∧
    storeWrites (checkAndUpdate envWriteFails exampleConfig ⟨none, []⟩).trace
      = [("last_ip.txt", "203.0.113.9")] ∧
    logLines (checkAndUpdate envWriteFails exampleConfig ⟨none, []⟩).trace
      = ["IP resolved from DNS: 203.0.113.9", "Current IP: 203.0.113.9",
          "GoDaddy DNS IP: 203.0.113.9", "IP matches GoDaddy DNS, no update needed"] ∧
    (logLines (checkAndUpdate envWriteFails exampleConfig ⟨none, []⟩).trace).all
      (fun line => !carries line "permission denied") = true ∧
    (logLines (checkAndUpdate envWriteFailsAfterUpdate exampleConfig ⟨none, []⟩).trace).any
      (fun line => carries line "permission denied") = true := by
  decide

end GoDaddy
